import Mathlib

/-!
Shallow embedding of `oauthdoctor/oauth/helper.go` (google-ads-doctor).

The file models, faithfully to the Go source:
  * the diagnostic-code enumeration and `decodeError` (the error classifier);
  * the credential-store operations (`diag.ConfigFile.ReplaceConfig` is an
    external collaborator, modelled from the spec's adapter interface);
  * the interactive remediation helpers `replaceCloudCredentials`,
    `replaceDevToken`, `replaceRefreshToken`, the `diagnose` dispatcher, and
    `ReadCustomerID`;
  * the account probe `getAccount` and the token exchanger `oauth2Client`.

Stdin is modelled as a list of lines (each line as delivered by Go's
`bufio.Reader.ReadString` includes its trailing newline); the external
`encoding/json` unmarshaller and the HTTP transport are parameters of the
functions that call them.
-/

/-- The error-code enumeration of helper.go (`const ( AccessNotPermittedForManagerAccount = iota ... )`). -/
inductive DiagnosticCode where
  | AccessNotPermittedForManagerAccount
  | GoogleAdsAPIDisabled
  | InvalidClientInfo
  | InvalidRefreshToken
  | InvalidCustomerID
  | MissingDevToken
  | Unauthenticated
  | Unauthorized
  | UnknownError
deriving DecidableEq

/-- Whether `needle` occurs at the start of `hay` (character-wise). -/
def listStartsWith : List Char → List Char → Bool
  | _, [] => true
  | [], _ :: _ => false
  | a :: as, b :: bs => a == b && listStartsWith as bs

/-- Whether `needle` occurs as a contiguous sublist of `hay`. -/
def listHasSub : List Char → List Char → Bool
  | [], needle => needle.isEmpty
  | a :: rest, needle => listStartsWith (a :: rest) needle || listHasSub rest needle

/-- Go's `strings.Contains(s, sub)`: substring containment. All patterns used
by helper.go are ASCII, so byte-level and character-level containment agree. -/
def strContains (s sub : String) : Bool :=
  listHasSub s.data sub.data

/-- Go's `strings.Replace(s, "\n", "", -1)`: remove every newline character. -/
def stripNewlines (s : String) : String :=
  ⟨s.data.filter fun ch => ch != '\n'⟩

/-- Go's `strings.Replace(s, "-", "", -1)`: remove every dash character. -/
def removeDashes (s : String) : String :=
  ⟨s.data.filter fun ch => ch != '-'⟩

/-- Unicode White_Space characters, as trimmed by Go's `strings.TrimSpace`. -/
def isSpaceChar (ch : Char) : Bool :=
  ch == '\t' || ch == '\n' || ch == '\x0b' || ch == '\x0c' || ch == '\r' ||
  ch == ' ' || ch == '\u0085' || ch == ' ' || ch == ' ' ||
  ch == ' ' || ch == ' ' || ch == ' ' || ch == ' ' ||
  ch == ' ' || ch == ' ' || ch == ' ' || ch == ' ' ||
  ch == ' ' || ch == ' ' || ch == ' ' || ch == ' ' ||
  ch == ' ' || ch == ' ' || ch == ' ' || ch == '　'

/-- Go's `strings.TrimSpace`: drop leading and trailing white space. -/
def trimSpace (s : String) : String :=
  ⟨((s.data.dropWhile isSpaceChar).reverse.dropWhile isSpaceChar).reverse⟩

/-- helper.go `decodeError`, lines 78-118: an ordered chain of
`strings.Contains` checks over `err.Error()`; first match wins, fallback
`UnknownError`. -/
def decodeError (errstr : String) : DiagnosticCode :=
  if strContains errstr "invalid_client" then .InvalidClientInfo
  else if strContains errstr "unauthorized_client" then .Unauthorized
  else if strContains errstr "invalid_grant" then .InvalidRefreshToken
  else if strContains errstr "refresh token is not set" then .InvalidRefreshToken
  else if strContains errstr "USER_PERMISSION_DENIED" then .InvalidRefreshToken
  else if strContains errstr "\"PERMISSION_DENIED\"" then .GoogleAdsAPIDisabled
  else if strContains errstr "UNAUTHENTICATED" then .Unauthenticated
  else if strContains errstr "CANNOT_BE_EXECUTED_BY_MANAGER_ACCOUNT" then .AccessNotPermittedForManagerAccount
  else if strContains errstr "DEVELOPER_TOKEN_PARAMETER_MISSING" then .MissingDevToken
  else if strContains errstr "INVALID_CUSTOMER_ID" then .InvalidCustomerID
  else .UnknownError

/-- Kind of failure a raw error carries (spec §3: transport failure string, or
a JSON-encoded provider error body). `decodeError` never inspects the kind. -/
inductive RawErrorKind where
  | transportFailure
  | providerBody
deriving DecidableEq

/-- A Go `error` value as seen by the classifier: `decodeError` observes only
`err.Error()`, modelled by the `text` field. -/
structure RawError where
  kind : RawErrorKind
  text : String

/-- Classification of a raw Go error: helper.go line 79 takes `err.Error()`
and hands it to the containment chain. -/
def classifyRawError (e : RawError) : DiagnosticCode :=
  decodeError e.text

/-- None of the ten patterns of the `decodeError` chain occurs in `s`. -/
def noPatternMatch (s : String) : Bool :=
  !strContains s "invalid_client" && !strContains s "unauthorized_client" &&
  !strContains s "invalid_grant" && !strContains s "refresh token is not set" &&
  !strContains s "USER_PERMISSION_DENIED" && !strContains s "\"PERMISSION_DENIED\"" &&
  !strContains s "UNAUTHENTICATED" && !strContains s "CANNOT_BE_EXECUTED_BY_MANAGER_ACCOUNT" &&
  !strContains s "DEVELOPER_TOKEN_PARAMETER_MISSING" && !strContains s "INVALID_CUSTOMER_ID"

/-- Configuration keys of the client library configuration file
(`diag.ClientID`, `diag.ClientSecret`, `diag.DevToken`, `diag.RefreshToken`,
`diag.LoginCustomerID`). -/
inductive ConfigKey where
  | ClientID
  | ClientSecret
  | DevToken
  | RefreshToken
  | LoginCustomerID
deriving DecidableEq

/-- Modelled from the spec: the Credential Store Adapter (`diag.ConfigFile`,
whose implementation is outside helper.go) holds four named credential fields
plus the read-only login-customer-id (spec §2, §6). -/
structure ConfigFile where
  clientID : String
  clientSecret : String
  devToken : String
  refreshToken : String
  loginCustomerID : String
deriving DecidableEq

/-- Modelled from the spec: the adapter's `replace(field, value)` operation
(`diag.ConfigFile.ReplaceConfig`): a complete replacement of exactly the named
field (spec §3 invariant, §6). -/
def ConfigFile.ReplaceConfig (c : ConfigFile) (key : ConfigKey) (value : String) : ConfigFile :=
  match key with
  | .ClientID => { c with clientID := value }
  | .ClientSecret => { c with clientSecret := value }
  | .DevToken => { c with devToken := value }
  | .RefreshToken => { c with refreshToken := value }
  | .LoginCustomerID => { c with loginCustomerID := value }

/-- helper.go `replaceCloudCredentials`, lines 160-179: read one line for the
client ID and one for the client secret, strip newlines from each, and replace
both fields via the adapter. -/
def replaceCloudCredentials (c : ConfigFile) (line1 line2 : String) : ConfigFile :=
  let clientID := stripNewlines line1
  let clientSecret := stripNewlines line2
  (c.ReplaceConfig .ClientID clientID).ReplaceConfig .ClientSecret clientSecret

/-- helper.go `replaceDevToken`, lines 184-197: read one line, strip newlines,
replace the developer token via the adapter. -/
def replaceDevToken (c : ConfigFile) (line : String) : ConfigFile :=
  let devToken := stripNewlines line
  c.ReplaceConfig .DevToken devToken

/-- helper.go `replaceRefreshToken`, lines 201-216: read one answer line,
strip newlines; replace the stored refresh token only when the answer equals
`Y`, otherwise leave the store untouched. -/
def replaceRefreshToken (c : ConfigFile) (refreshToken : String) (answerLine : String) : ConfigFile :=
  let answer := stripNewlines answerLine
  if answer = "Y" then c.ReplaceConfig .RefreshToken refreshToken else c

/-- A JSON value, as produced by Go's `encoding/json` unmarshalling. -/
inductive JsonVal where
  | null
  | bool (b : Bool)
  | num (n : Int)
  | str (s : String)
  | arr (elems : List JsonVal)
  | obj (fields : List (String × JsonVal))

/-- Go's `jsonBody["error"] != nil` test after
`json.Unmarshal(body, &jsonBody)`: `none` models an unmarshal error (the map
stays empty), and a present key whose value is JSON `null` is a nil interface
value, hence not counted. -/
def hasErrorField (parsed : Option (List (String × JsonVal))) : Bool :=
  match parsed with
  | none => false
  | some fields =>
    match fields.lookup "error" with
    | none => false
    | some JsonVal.null => false
    | some _ => true

/-- helper.go `getAccount`, lines 245-270, over an abstract transport result
and the external `encoding/json` unmarshaller `u`: a transport error is
returned as-is; otherwise the body is read, and if its unmarshalled form has a
non-nil top-level `error` field the call fails with `errors.New(buf.String())`
(the full body), else the raw body is returned. -/
def getAccount (u : String → Option (List (String × JsonVal)))
    (transport : Except String String) : Except String String :=
  match transport with
  | .error e => .error e
  | .ok body => if hasErrorField (u body) then .error body else .ok body

/-- An OAuth2 token as returned by `conf.Exchange`. -/
structure Token where
  refreshToken : String

/-- Outcome of the code-for-token exchange performed inside `oauth2Client`. -/
inductive ExchangeResult where
  | ok (token : Token)
  | err (e : String)

/-- Possible outcomes of helper.go `oauth2Client`, lines 233-241: either an
authenticated client together with the refresh token, or process termination
via `log.Fatal(err)` (which logs the error and exits; nothing is returned to
the caller). -/
inductive ClientResult where
  | client (refreshToken : String)
  | fatalExit (logged : String)
deriving DecidableEq

/-- helper.go `oauth2Client`, lines 233-241: on exchange failure the function
calls `log.Fatal(err)` and the process exits; on success it returns the
authenticated client and `token.RefreshToken`. -/
def oauth2Client (exchange : ExchangeResult) : ClientResult :=
  match exchange with
  | .err e => .fatalExit e
  | .ok token => .client token.refreshToken

/-- The JSON-message-surfacing block at the top of helper.go `diagnose`,
lines 124-128, applied to the unmarshal result of the error text: `none`
models a Go panic. If unmarshalling failed the block is skipped; otherwise
`parsedMsg["error"].(map[string]interface{})["message"]` requires the `error`
field to be an object (else the type assertion panics) and `errMsg.(string)`
requires its `message` field to be a string (else that assertion panics). -/
def surfaceStep (parsed : Option (List (String × JsonVal))) : Option (Option String) :=
  match parsed with
  | none => some none
  | some fields =>
    match fields.lookup "error" with
    | some (JsonVal.obj efields) =>
      match efields.lookup "message" with
      | some (JsonVal.str m) => some (some m)
      | _ => none
    | _ => none

/-- What one call of helper.go `diagnose` produces: the optional surfaced
JSON message, the message printed by the switch arm, the store after any
credential replacement, and the stdin lines not yet consumed. -/
structure RemediateResult where
  message : String
  store : ConfigFile
  restInput : List String
deriving DecidableEq

/-- The `switch c.decodeError(err)` statement of helper.go `diagnose`, lines
130-155, acting on a diagnostic code: each arm prints one message; the
`GoogleAdsAPIDisabled` arm reads one acknowledgement line, the
`InvalidClientInfo` arm reads two lines and replaces the client ID and secret,
the `MissingDevToken` arm reads one line and replaces the developer token; no
other arm touches the store or stdin. -/
def remediate (code : DiagnosticCode) (c : ConfigFile) (inputs : List String) : RemediateResult :=
  match code with
  | .AccessNotPermittedForManagerAccount =>
    ⟨"ERROR: Your credentials are not sufficient to access to a manager account.\nPlease login with a Google Ads account with manager access.", c, inputs⟩
  | .GoogleAdsAPIDisabled =>
    ⟨"Press <Enter> to continue after you enable Google Ads API", c, inputs.drop 1⟩
  | .InvalidClientInfo =>
    ⟨"ERROR: Your client ID and/or secret may be invalid.",
      replaceCloudCredentials c (inputs.headD "") ((inputs.drop 1).headD ""), inputs.drop 2⟩
  | .InvalidRefreshToken =>
    ⟨"ERROR: Your refresh token may be invalid.", c, inputs⟩
  | .Unauthorized =>
    ⟨"ERROR: Your refresh token may be invalid.", c, inputs⟩
  | .MissingDevToken =>
    ⟨"ERROR: Your developer token is missing in the configuration file",
      replaceDevToken c (inputs.headD ""), inputs.drop 1⟩
  | .Unauthenticated =>
    ⟨"ERROR: The login email may not have access to the given account.", c, inputs⟩
  | .InvalidCustomerID =>
    ⟨"ERROR: You customer ID is invalid.", c, inputs⟩
  | .UnknownError =>
    ⟨"ERROR: Your credentials are invalid but we cannot determine the exact error. Please verify your developer token, client ID, client secret and refresh token.", c, inputs⟩

/-- Outcome of one helper.go `diagnose` call: either a Go panic inside the
JSON-surfacing block, or normal completion. -/
inductive DiagnoseOutcome where
  | panicked
  | completed (surfaced : Option String) (result : RemediateResult)
deriving DecidableEq

/-- helper.go `diagnose`, lines 122-155, over the external `encoding/json`
unmarshaller `u`: first the JSON-surfacing block (which can panic), then the
switch on `c.decodeError(err)`. -/
def diagnose (u : String → Option (List (String × JsonVal)))
    (c : ConfigFile) (inputs : List String) (errText : String) : DiagnoseOutcome :=
  match surfaceStep (u errText) with
  | none => .panicked
  | some surfaced => .completed surfaced (remediate (decodeError errText) c inputs)

/-- helper.go `ReadCustomerID`, lines 273-284: keep reading lines; strip
newlines and trim white space; on the first non-empty result return it with
every dash removed. `none` models the loop never returning (input exhausted). -/
def ReadCustomerID : List String → Option String
  | [] => none
  | line :: rest =>
    let customerID := trimSpace (stripNewlines line)
    if customerID ≠ "" then some (removeDashes customerID)
    else ReadCustomerID rest


/-- Claim C1: the classifier (`decodeError`) is total and deterministic — for
every error input it returns exactly one `DiagnosticCode`, depending only on
the error's text, and any input whose text contains none of the ten listed
patterns maps to `UnknownError`. -/
theorem classifyRawError_total (e : RawError) :
    (∃! code : DiagnosticCode, classifyRawError e = code) ∧
    (∀ e2 : RawError, e.text = e2.text → classifyRawError e = classifyRawError e2) ∧
    (noPatternMatch e.text = true → classifyRawError e = DiagnosticCode.UnknownError) := by
  refine ⟨⟨classifyRawError e, rfl, fun y h => h.symm⟩, ?_, ?_⟩
  · intro e2 h
    unfold classifyRawError
    rw [h]
  · intro h
    simp only [noPatternMatch, Bool.and_eq_true, Bool.not_eq_true'] at h
    obtain ⟨⟨⟨⟨⟨⟨⟨⟨⟨h1, h2⟩, h3⟩, h4⟩, h5⟩, h6⟩, h7⟩, h8⟩, h9⟩, h10⟩ := h
    simp [classifyRawError, decodeError, h1, h2, h3, h4, h5, h6, h7, h8, h9, h10]

/-- Witness for C1: a concrete transport error matching no pattern classifies
as `UnknownError`. -/
theorem classifyRawError_total_witness :
    noPatternMatch "connection refused" = true ∧
    classifyRawError ⟨RawErrorKind.transportFailure, "connection refused"⟩ =
      DiagnosticCode.UnknownError :=
  ⟨by decide,
   (classifyRawError_total ⟨RawErrorKind.transportFailure, "connection refused"⟩).2.2 (by decide)⟩

/-- Counterexample to claim C2 as stated: an error text containing both
`invalid_grant` and `PERMISSION_DENIED` but also `invalid_client` is
classified `InvalidClientInfo` (the first match in the chain), not
`InvalidRefreshToken`. -/
theorem decodeError_c2_counterexample :
    strContains "invalid_client invalid_grant \"PERMISSION_DENIED\"" "invalid_grant" = true ∧
    strContains "invalid_client invalid_grant \"PERMISSION_DENIED\"" "PERMISSION_DENIED" = true ∧
    decodeError "invalid_client invalid_grant \"PERMISSION_DENIED\"" =
      DiagnosticCode.InvalidClientInfo ∧
    decodeError "invalid_client invalid_grant \"PERMISSION_DENIED\"" ≠
      DiagnosticCode.InvalidRefreshToken := by
  decide

/-- Claim C2 (amended): for every error text containing both `invalid_grant`
and `PERMISSION_DENIED` and containing neither of the earlier patterns
`invalid_client` and `unauthorized_client`, classification returns
`InvalidRefreshToken`, not `GoogleAdsAPIDisabled`. -/
theorem decodeError_grant_precedence (s : String)
    (hg : strContains s "invalid_grant" = true)
    (_hp : strContains s "PERMISSION_DENIED" = true)
    (hc : strContains s "invalid_client" = false)
    (hu : strContains s "unauthorized_client" = false) :
    decodeError s = DiagnosticCode.InvalidRefreshToken ∧
    decodeError s ≠ DiagnosticCode.GoogleAdsAPIDisabled := by
  have hmain : decodeError s = DiagnosticCode.InvalidRefreshToken := by
    simp [decodeError, hc, hu, hg]
  refine ⟨hmain, ?_⟩
  rw [hmain]
  decide

/-- Witness for C2 (amended) at a concrete error text. -/
theorem decodeError_grant_precedence_witness :
    decodeError "invalid_grant \"PERMISSION_DENIED\"" = DiagnosticCode.InvalidRefreshToken ∧
    decodeError "invalid_grant \"PERMISSION_DENIED\"" ≠ DiagnosticCode.GoogleAdsAPIDisabled :=
  decodeError_grant_precedence "invalid_grant \"PERMISSION_DENIED\""
    (by decide) (by decide) (by decide) (by decide)

/-- Claim C3: an error text containing `refresh token is not set` or
`USER_PERMISSION_DENIED`, and none of the earlier patterns `invalid_client`,
`unauthorized_client`, `invalid_grant`, classifies as `InvalidRefreshToken`;
and an input containing `USER_PERMISSION_DENIED` is never classified
`GoogleAdsAPIDisabled` even though its text contains the characters
`PERMISSION_DENIED`. -/
theorem decodeError_refresh_order (s : String) :
    ((strContains s "invalid_client" = false ∧ strContains s "unauthorized_client" = false ∧
        strContains s "invalid_grant" = false) →
      (strContains s "refresh token is not set" = true ∨
        strContains s "USER_PERMISSION_DENIED" = true) →
      decodeError s = DiagnosticCode.InvalidRefreshToken) ∧
    (strContains s "USER_PERMISSION_DENIED" = true →
      decodeError s ≠ DiagnosticCode.GoogleAdsAPIDisabled) := by
  constructor
  · rintro ⟨h1, h2, h3⟩ (h4 | h4)
    · simp [decodeError, h1, h2, h3, h4]
    · by_cases h5 : strContains s "refresh token is not set" = true
      · simp [decodeError, h1, h2, h3, h5]
      · rw [Bool.not_eq_true] at h5
        simp [decodeError, h1, h2, h3, h5, h4]
  · intro h
    unfold decodeError
    split_ifs <;> simp_all

/-- Witness for C3: the characters `PERMISSION_DENIED` occur inside
`USER_PERMISSION_DENIED`, yet classification gives `InvalidRefreshToken`. -/
theorem decodeError_refresh_order_witness :
    strContains "x USER_PERMISSION_DENIED y" "PERMISSION_DENIED" = true ∧
    decodeError "x USER_PERMISSION_DENIED y" = DiagnosticCode.InvalidRefreshToken ∧
    decodeError "x USER_PERMISSION_DENIED y" ≠ DiagnosticCode.GoogleAdsAPIDisabled :=
  ⟨by decide,
   (decodeError_refresh_order "x USER_PERMISSION_DENIED y").1
     ⟨by decide, by decide, by decide⟩ (Or.inr (by decide)),
   (decodeError_refresh_order "x USER_PERMISSION_DENIED y").2 (by decide)⟩

/-- Claim C4: `replaceRefreshToken` persists the new refresh token exactly
when the operator's answer, stripped of newline characters, is the string
`Y`; it touches no field other than the refresh token; and the answers `y`,
`yes`, `N` and the empty line all leave the store unchanged. -/
theorem replaceRefreshToken_gate :
    (∀ (c : ConfigFile) (t a : String), stripNewlines a = "Y" →
        replaceRefreshToken c t a = { c with refreshToken := t }) ∧
    (∀ (c : ConfigFile) (t a : String), stripNewlines a ≠ "Y" →
        replaceRefreshToken c t a = c) ∧
    (∀ (c : ConfigFile) (t a : String),
        (replaceRefreshToken c t a).clientID = c.clientID ∧
        (replaceRefreshToken c t a).clientSecret = c.clientSecret ∧
        (replaceRefreshToken c t a).devToken = c.devToken ∧
        (replaceRefreshToken c t a).loginCustomerID = c.loginCustomerID) ∧
    (∀ (c : ConfigFile) (t : String),
        replaceRefreshToken c t "y\n" = c ∧ replaceRefreshToken c t "yes\n" = c ∧
        replaceRefreshToken c t "N\n" = c ∧ replaceRefreshToken c t "\n" = c) := by
  refine ⟨?_, ?_, ?_, ?_⟩
  · intro c t a h
    simp [replaceRefreshToken, h, ConfigFile.ReplaceConfig]
  · intro c t a h
    simp [replaceRefreshToken, h]
  · intro c t a
    by_cases h : stripNewlines a = "Y" <;>
      simp [replaceRefreshToken, ConfigFile.ReplaceConfig, h]
  · intro c t
    refine ⟨?_, ?_, ?_, ?_⟩ <;>
      simp [replaceRefreshToken, show (stripNewlines "y\n" = "Y") = False by simp [stripNewlines],
        show (stripNewlines "yes\n" = "Y") = False by simp [stripNewlines],
        show (stripNewlines "N\n" = "Y") = False by simp [stripNewlines],
        show (stripNewlines "\n" = "Y") = False by simp [stripNewlines]]

/-- Witness for C4: a concrete `Y` answer persists the token, a concrete `n`
answer does not. -/
theorem replaceRefreshToken_gate_witness :
    replaceRefreshToken ⟨"id", "sec", "dev", "old", "login"⟩ "new" "Y\n" =
      ⟨"id", "sec", "dev", "new", "login"⟩ ∧
    replaceRefreshToken ⟨"id", "sec", "dev", "old", "login"⟩ "new" "n\n" =
      ⟨"id", "sec", "dev", "old", "login"⟩ :=
  ⟨replaceRefreshToken_gate.1 ⟨"id", "sec", "dev", "old", "login"⟩ "new" "Y\n" (by decide),
   replaceRefreshToken_gate.2.1 ⟨"id", "sec", "dev", "old", "login"⟩ "new" "n\n" (by decide)⟩

/-- Claim C5: remediating `InvalidClientInfo` with operator input lines
`abc.apps.googleusercontent.com` and `secretXYZ` updates the store's client ID
and client secret to exactly those values with the trailing newline stripped,
and touches no other field. -/
theorem remediate_invalid_client_frame (c : ConfigFile) :
    (remediate DiagnosticCode.InvalidClientInfo c
        ["abc.apps.googleusercontent.com\n", "secretXYZ\n"]).store.clientID =
      "abc.apps.googleusercontent.com" ∧
    (remediate DiagnosticCode.InvalidClientInfo c
        ["abc.apps.googleusercontent.com\n", "secretXYZ\n"]).store.clientSecret = "secretXYZ" ∧
    (remediate DiagnosticCode.InvalidClientInfo c
        ["abc.apps.googleusercontent.com\n", "secretXYZ\n"]).store.devToken = c.devToken ∧
    (remediate DiagnosticCode.InvalidClientInfo c
        ["abc.apps.googleusercontent.com\n", "secretXYZ\n"]).store.refreshToken = c.refreshToken ∧
    (remediate DiagnosticCode.InvalidClientInfo c
        ["abc.apps.googleusercontent.com\n", "secretXYZ\n"]).store.loginCustomerID =
      c.loginCustomerID := by
  refine ⟨?_, ?_, rfl, rfl, rfl⟩
  · show stripNewlines "abc.apps.googleusercontent.com\n" = "abc.apps.googleusercontent.com"
    decide
  · show stripNewlines "secretXYZ\n" = "secretXYZ"
    decide

/-- The codes claim C6 calls non-mutating: every code except
`InvalidClientInfo` and `MissingDevToken`. -/
def c6Codes : List DiagnosticCode :=
  [.AccessNotPermittedForManagerAccount, .InvalidRefreshToken, .Unauthorized,
   .Unauthenticated, .InvalidCustomerID, .UnknownError, .GoogleAdsAPIDisabled]

/-- Claim C6: for every code in the non-mutating list, remediating twice in
sequence leaves the store untouched both times and reports the same message
both times. -/
theorem remediate_idempotent_nonmutating (code : DiagnosticCode) (c : ConfigFile)
    (inputs : List String) (h : code ∈ c6Codes) :
    (remediate code c inputs).store = c ∧
    (remediate code ((remediate code c inputs).store)
        ((remediate code c inputs).restInput)).store = c ∧
    (remediate code ((remediate code c inputs).store)
        ((remediate code c inputs).restInput)).message = (remediate code c inputs).message := by
  fin_cases h <;> simp [remediate]

/-- Witness for C6 at `InvalidCustomerID` and a concrete store. -/
theorem remediate_idempotent_nonmutating_witness :
    (remediate DiagnosticCode.InvalidCustomerID ⟨"id", "sec", "dev", "ref", "log"⟩ []).store =
      ⟨"id", "sec", "dev", "ref", "log"⟩ ∧
    (remediate DiagnosticCode.InvalidCustomerID
        ((remediate DiagnosticCode.InvalidCustomerID ⟨"id", "sec", "dev", "ref", "log"⟩ []).store)
        ((remediate DiagnosticCode.InvalidCustomerID
            ⟨"id", "sec", "dev", "ref", "log"⟩ []).restInput)).store =
      ⟨"id", "sec", "dev", "ref", "log"⟩ ∧
    (remediate DiagnosticCode.InvalidCustomerID
        ((remediate DiagnosticCode.InvalidCustomerID ⟨"id", "sec", "dev", "ref", "log"⟩ []).store)
        ((remediate DiagnosticCode.InvalidCustomerID
            ⟨"id", "sec", "dev", "ref", "log"⟩ []).restInput)).message =
      (remediate DiagnosticCode.InvalidCustomerID ⟨"id", "sec", "dev", "ref", "log"⟩ []).message :=
  remediate_idempotent_nonmutating DiagnosticCode.InvalidCustomerID
    ⟨"id", "sec", "dev", "ref", "log"⟩ [] (by decide)

/-- Claim C7: `getAccount` succeeds with the raw body exactly when the
transport succeeded and the unmarshalled body has no (non-nil) top-level
`error` field; with such a field it fails with the full body as the error;
a transport failure is propagated as-is. -/
theorem getAccount_spec (u : String → Option (List (String × JsonVal))) :
    (∀ body : String,
        getAccount u (Except.ok body) = Except.ok body ↔ hasErrorField (u body) = false) ∧
    (∀ body : String, hasErrorField (u body) = true →
        getAccount u (Except.ok body) = Except.error body) ∧
    (∀ e : String, getAccount u (Except.error e) = Except.error e) := by
  refine ⟨?_, ?_, fun e => rfl⟩
  · intro body
    constructor
    · intro h
      by_contra hne
      rw [Bool.not_eq_false] at hne
      simp [getAccount, hne] at h
    · intro h
      simp [getAccount, h]
  · intro body h
    simp [getAccount, h]

/-- Witness for C7: a body whose unmarshalled form has a non-nil `error` field
makes the probe fail with the full body. -/
theorem getAccount_spec_witness :
    getAccount (fun _ => some [("error", JsonVal.str "denied")]) (Except.ok "rawbody") =
      Except.error "rawbody" :=
  (getAccount_spec (fun _ => some [("error", JsonVal.str "denied")])).2.1 "rawbody" (by decide)

/-- Whether an `oauth2Client` outcome terminates the process (so the failure
can never reach `diagnose` and the classifier). -/
def terminatesProcess : ClientResult → Bool
  | ClientResult.fatalExit _ => true
  | ClientResult.client _ => false

/-- Counterexample to claim C8 as stated: at a concrete failing exchange,
`oauth2Client` calls `log.Fatal` and the process exits — the failure is not
returned for classification. -/
theorem oauth2Client_forwarding_counterexample :
    oauth2Client (ExchangeResult.err "invalid_grant bad token") =
      ClientResult.fatalExit "invalid_grant bad token" ∧
    terminatesProcess (oauth2Client (ExchangeResult.err "invalid_grant bad token")) = true :=
  ⟨rfl, rfl⟩

/-- Claim C8 (amended): for every failing code-for-token exchange,
`oauth2Client` logs the error fatally and terminates the process; the failure
is never forwarded to the Error Classifier. -/
theorem oauth2Client_exchange_failure (e : String) :
    oauth2Client (ExchangeResult.err e) = ClientResult.fatalExit e ∧
    terminatesProcess (oauth2Client (ExchangeResult.err e)) = true :=
  ⟨rfl, rfl⟩

/-- Claim C9 is a code bug: on an error text that unmarshals as JSON without
an `error` object (here the object with single field `status`), the
type assertion `parsedMsg["error"].(map[string]interface{})` in `diagnose`
panics, so `diagnose` does not complete. -/
theorem diagnose_panics_without_error_object :
    diagnose (fun s => if s = "\x7b\"status\": \"ok\"\x7d"
        then some [("status", JsonVal.str "ok")] else none)
      ⟨"id", "sec", "dev", "ref", "log"⟩ [] "\x7b\"status\": \"ok\"\x7d" =
      DiagnoseOutcome.panicked := by
  decide

/-- Counterexample to claim C10 as stated: the input line consisting of a
single dash is non-empty after trimming, yet `ReadCustomerID` returns the
empty string. -/
theorem ReadCustomerID_empty_counterexample :
    trimSpace (stripNewlines "-\n") ≠ "" ∧ ReadCustomerID ["-\n"] = some "" := by
  decide

/-- Claim C10 (amended): for every sequence of operator input lines containing
at least one line that is non-empty after newline stripping and whitespace
trimming, `ReadCustomerID` returns the first such line, trimmed and with every
dash removed (possibly the empty string when the line is all dashes). -/
theorem ReadCustomerID_first_valid (pre : List String) (line : String) (rest : List String)
    (hpre : ∀ l ∈ pre, trimSpace (stripNewlines l) = "")
    (hline : trimSpace (stripNewlines line) ≠ "") :
    ReadCustomerID (pre ++ line :: rest) =
      some (removeDashes (trimSpace (stripNewlines line))) := by
  induction pre with
  | nil => simp [ReadCustomerID, hline]
  | cons p ps ih =>
    have hp : trimSpace (stripNewlines p) = "" := hpre p (by simp)
    have hps : ∀ l ∈ ps, trimSpace (stripNewlines l) = "" := fun l hl => hpre l (by simp [hl])
    simp [ReadCustomerID, hp, ih hps]

/-- Witness for C10 (amended): a blank line followed by a dashed account ID
yields the normalized, dash-free ID. -/
theorem ReadCustomerID_first_valid_witness :
    ReadCustomerID ["  \n", " 123-456-7890\n"] = some "1234567890" := by
  have h := ReadCustomerID_first_valid ["  \n"] " 123-456-7890\n" [] (by decide) (by decide)
  exact h.trans (by decide)
